import Mathlib

/-!
# Verification of the LM Studio lifecycle manager of `ai-commit-cli`

This file gives a shallow embedding of the local-inference-server lifecycle
manager of the `ai-commit-cli` repository (the latest variant of the
`services/lmstudio.js` module, together with the configuration object built in
`config/env.js`) and proves properties of that embedding.

Modelling conventions:
* The behaviour of the outside world (child-process exit codes, captured
  output, HTTP responses) is an explicit environment value passed to each
  function; JavaScript exceptions become `Except`/`Option` results, and the
  `try`/`catch` normalisation present in the source becomes total functions.
* Side effects (spawned child processes, HTTP requests, sleeps, and the log
  lines that the verified claims refer to) are recorded in an explicit trace
  of type `List Act`.  Purely decorative progress lines are not recorded.
* JavaScript string truthiness (`""` is falsy, `undefined` is falsy) is
  modelled by `jsOrStr`/`optTruthy` on `Option String`.
* `parseFloat` is modelled by `jsParseFloat`, returning `none` for `NaN`.
  The `Infinity` results of the real `parseFloat` are also mapped to `none`:
  in this program the parsed value is only ever consumed by the range gate
  `0 ≤ v ≤ 1`, which an infinite value fails exactly like `NaN` does, so the
  two are observationally equal here.  Parsed numbers are exact scaled
  decimals (`Dec`, denoting `mant * 10 ^ scale`) rather than IEEE doubles;
  `Dec.val` gives their rational value, and the comparison gates used by the
  code are proved equivalent to the rational-value comparisons.
* Number-to-string conversion (used in `--gpu=${value}`) is modelled by
  `jsNumToString`, which renders a decimal fraction with no trailing zeros,
  matching JavaScript's rendering on the decimal values in `[0, 1]` that the
  GPU option can carry.
-/

namespace AICommit

/-- JavaScript `a || b` on strings: the empty string is falsy. -/
def jsOrS (a b : String) : String :=
  if a = "" then b else a

/-- JavaScript `v || d` where `v` is a possibly-`undefined` string
(`process.env` lookups): `undefined` and `""` both fall back to `d`. -/
def jsOrStr (v : Option String) (d : String) : String :=
  match v with
  | none => d
  | some s => if s = "" then d else s

/-- JavaScript truthiness of a possibly-`undefined` string. -/
def optTruthy (v : Option String) : Bool :=
  match v with
  | none => false
  | some s => s ≠ ""

/-- Whitespace skipped by `parseFloat` (the common JavaScript cases). -/
def isWsChar (c : Char) : Bool :=
  c = ' ' ∨ c = '\t' ∨ c = '\n' ∨ c = '\r' ∨ c = '\x0b' ∨ c = '\x0c'

/-- Splits a leading run of decimal digits off a character list. -/
def takeDigits : List Char → List Char × List Char
  | [] => ([], [])
  | c :: cs =>
    if c.isDigit then
      let (d, r) := takeDigits cs
      (c :: d, r)
    else ([], c :: cs)

/-- Numeric value of a list of decimal digits. -/
def digitsVal (ds : List Char) : Nat :=
  ds.foldl (fun a c => a * 10 + (c.toNat - '0'.toNat)) 0

/-- An exact scaled decimal, denoting `mant * 10 ^ scale`.  This is the
number representation used to model JavaScript floats in this program (all
numbers the GPU option handles are decimal literals). -/
structure Dec where
  mant : Int
  scale : Int
deriving DecidableEq, Repr

/-- Rational value denoted by a scaled decimal. -/
def Dec.val (d : Dec) : Rat :=
  if 0 ≤ d.scale then (d.mant : Rat) * (10 : Rat) ^ d.scale.toNat
  else (d.mant : Rat) / (10 : Rat) ^ (-d.scale).toNat

/-- Decidable test for `0 ≤ value` (the JavaScript `numValue >= 0.0`). -/
def Dec.nonneg (d : Dec) : Bool :=
  0 ≤ d.mant

/-- Decidable test for `value ≤ 1` (the JavaScript `numValue <= 1.0`). -/
def Dec.leOne (d : Dec) : Bool :=
  if 0 ≤ d.scale then d.mant * (10 : Int) ^ d.scale.toNat ≤ 1
  else d.mant ≤ (10 : Int) ^ (-d.scale).toNat

/-- Exponent value after the `e`/`E` of a float literal; an `e` not followed
by at least one digit contributes no exponent (longest-valid-prefix rule). -/
def expAfterE (cs : List Char) : Int :=
  match cs with
  | '+' :: rest => if (takeDigits rest).1 = [] then 0 else (digitsVal (takeDigits rest).1 : Int)
  | '-' :: rest => if (takeDigits rest).1 = [] then 0 else -(digitsVal (takeDigits rest).1 : Int)
  | rest => if (takeDigits rest).1 = [] then 0 else (digitsVal (takeDigits rest).1 : Int)

/-- Exponent part of a float literal, `0` when absent. -/
def expPart (cs : List Char) : Int :=
  match cs with
  | 'e' :: rest => expAfterE rest
  | 'E' :: rest => expAfterE rest
  | _ => 0

/-- Unsigned mantissa of a float literal: `digits`, `digits.digits?`, or
`.digits`; fails when no digit is present. Returns the value and the rest. -/
def mantissa (cs : List Char) : Option (Dec × List Char) :=
  let (ip, r1) := takeDigits cs
  match r1 with
  | '.' :: r2 =>
    let (fp, r3) := takeDigits r2
    if ip = [] ∧ fp = [] then none
    else some (⟨(digitsVal ip * 10 ^ fp.length + digitsVal fp : Int), -(fp.length : Int)⟩, r3)
  | _ => if ip = [] then none else some (⟨(digitsVal ip : Int), 0⟩, r1)

/-- Model of JavaScript `parseFloat`: skip whitespace, optional sign, longest
valid decimal-literal prefix; `none` models `NaN` (and, as explained in the
file header, the `Infinity` results, which this program treats identically). -/
def jsParseFloat (s : String) : Option Dec :=
  let cs := s.toList.dropWhile isWsChar
  match cs with
  | '+' :: r =>
    match mantissa r with
    | none => none
    | some (m, rest) => some ⟨m.mant, m.scale + expPart rest⟩
  | '-' :: r =>
    match mantissa r with
    | none => none
    | some (m, rest) => some ⟨-m.mant, m.scale + expPart rest⟩
  | r =>
    match mantissa r with
    | none => none
    | some (m, rest) => some ⟨m.mant, m.scale + expPart rest⟩

/-- Strips factors of ten from the mantissa into the scale (structural fuel
version; fuel `mant.natAbs` always suffices). -/
def stripTens : Nat → Int → Int → Int × Int
  | 0, m, s => (m, s)
  | fuel + 1, m, s => if m ≠ 0 ∧ m % 10 = 0 then stripTens fuel (m / 10) (s + 1) else (m, s)

/-- Left-pads a digit string with zeros to length `k`. -/
def padZeros (s : String) (k : Nat) : String :=
  String.mk (List.replicate (k - s.length) '0') ++ s

/-- Model of JavaScript number-to-string for the exact decimal fractions this
program can emit: minimal decimal expansion, no trailing zeros, `"0"` for
zero (also negative zero), integer rendering for integers. -/
def jsNumToString (d : Dec) : String :=
  if d.mant = 0 then "0"
  else
    let (m, s) := stripTens d.mant.natAbs d.mant d.scale
    let sgn := if d.mant < 0 then "-" else ""
    if 0 ≤ s then sgn ++ toString (m.natAbs * 10 ^ s.toNat)
    else
      let k := (-s).toNat
      let a := m.natAbs
      sgn ++ toString (a / 10 ^ k) ++ "." ++ padZeros (toString (a % 10 ^ k)) k

/-- `needle` starts `hay` (list version of a string `startsWith`). -/
def beginsWith : List Char → List Char → Bool
  | _, [] => true
  | [], _ :: _ => false
  | a :: as, b :: bs => a = b && beginsWith as bs

/-- List version of JavaScript `hay.includes(needle)`. -/
def listIncl : List Char → List Char → Bool
  | hay, [] => hay = hay  -- the empty needle is always included
  | [], _ :: _ => false
  | h :: t, n :: ns => beginsWith (h :: t) (n :: ns) || listIncl t (n :: ns)

/-- JavaScript `hay.includes(needle)`. -/
def strIncludes (hay needle : String) : Bool :=
  listIncl hay.toList needle.toList

/-- ASCII lower-casing of one character. -/
def lowerChar (c : Char) : Char :=
  if 'A' ≤ c ∧ c ≤ 'Z' then Char.ofNat (c.toNat + 32) else c

/-- Model of JavaScript `toLowerCase()` (ASCII range — all that the single
comparison with `"max"` in this program can distinguish). -/
def jsToLower (s : String) : String :=
  String.mk (s.toList.map lowerChar)

/-- The configuration record built in `src/config/env.js` (`config.lmstudio`).
Fields that `process.env` may leave undefined are `Option String`. -/
structure Config where
  model : String
  baseURL : String
  apiKey : String
  startCommand : Option String
  loadModel : Bool
  gpu : String
  contextLength : Option String
  modelIdentifier : Option String
deriving DecidableEq, Repr

/-- `config.lmstudio` as built by `src/config/env.js` from the raw environment
variables (`LMSTUDIO_MODEL`, `LMSTUDIO_BASE_URL`, `LMSTUDIO_API_KEY`,
`LMSTUDIO_START_COMMAND`, `LMSTUDIO_LOAD_MODEL`, `LMSTUDIO_GPU`,
`LMSTUDIO_CONTEXT_LENGTH`, `LMSTUDIO_MODEL_IDENTIFIER`, in that order). -/
def configFromEnv (model baseURL apiKey startCommand loadModel gpu
    contextLength modelIdentifier : Option String) : Config where
  model := jsOrStr model "YOUR_MODEL_ID_HERE"
  baseURL := jsOrStr baseURL "http://localhost:1234/v1"
  apiKey := jsOrStr apiKey "lm-studio"
  startCommand := startCommand
  loadModel := loadModel ≠ some "false"
  gpu := jsOrStr gpu "auto"
  contextLength := contextLength
  modelIdentifier := modelIdentifier

/-- The disabling-sentinel test of `ensureLMStudioRunning`
(`startCommand === "false" || startCommand === "0"`). -/
def startDisabled (sc : Option String) : Bool :=
  sc = some "false" || sc = some "0"

/-- Observable effects of the lifecycle manager.  `spawnSync` is a
synchronous child process (command, arguments, timeout option); `spawnDetached`
is a fire-and-forget child process (`viaShell` for `shell: true`, `quiet` for
`stdio: "ignore"`); `httpGet` is one HTTP GET (url, authorization header,
timeout); `sleepMs` is one `setTimeout` wait.  Log lines are recorded only
where a verified claim refers to them. -/
inductive Act where
  | spawnSync (cmd : String) (args : List String) (timeoutMs : Option Nat)
  | spawnDetached (cmd : String) (args : List String) (viaShell : Bool) (quiet : Bool)
  | httpGet (url : String) (authHeader : String) (timeoutMs : Nat)
  | sleepMs (ms : Nat)
  | logInfo (msg : String)
  | logWarn (msg : String)
deriving DecidableEq, Repr

/-- Result of one `spawnSync` call: `status = none` models a spawn error or
timeout (Node returns `status: null` there), `some c` a normal exit code. -/
structure SpawnResult where
  status : Option Int
  stdout : String
  stderr : String
deriving DecidableEq, Repr

/-- External behaviour seen by one invocation of `checkLMStudioAccessible`:
the exit of `lms version`, the exit of `lms server status`, and the outcome
of the HTTP GET (`none` models a network error, abort, or timeout). -/
structure ProbeWorld where
  versionExit : Option Int
  serverStatusExit : Option Int
  fetchStatus : Option Nat
deriving DecidableEq, Repr

/-- `response.ok`: HTTP status in the 2xx range. -/
def respOk (s : Nat) : Bool :=
  200 ≤ s ∧ s < 300

/-- `isLMSCLIAvailable`: `spawnSync("lms", ["version"], { timeout: 2000 })`
succeeds with exit status `0`; every spawn error or non-zero exit is `false`
(the `try`/`catch` of the source is the totality of this function). -/
def isLMSCLIAvailable (versionExit : Option Int) : Bool :=
  versionExit = some 0

/-- `checkServerStatusWithCLI`: `spawnSync("lms", ["server", "status"])`
exits `0`. -/
def checkServerStatusWithCLI (statusExit : Option Int) : Bool :=
  statusExit = some 0

/-- The single `fetch` of `checkLMStudioAccessible`: GET
`{baseURL}/models` with an `Authorization: Bearer {apiKey}` header and a
2000 ms abort signal. -/
def fetchAct (cfg : Config) : Act :=
  Act.httpGet (cfg.baseURL ++ "/models") ("Bearer " ++ cfg.apiKey) 2000

/-- `checkLMStudioAccessible` (latest variant, `src/index.js` lines 399-436):
first runs the CLI detector, then - when the CLI reports the server running -
double-checks with the HTTP models endpoint; otherwise falls back to the
direct HTTP check.  Returns the trace of its effects and its boolean result;
every failure is normalised to `false`. -/
def checkLMStudioAccessible (cfg : Config) (w : ProbeWorld) : List Act × Bool :=
  let fetchResult :=
    match w.fetchStatus with
    | some s => respOk s
    | none => false
  if isLMSCLIAvailable w.versionExit then
    if checkServerStatusWithCLI w.serverStatusExit then
      ([Act.spawnSync "lms" ["version"] (some 2000),
        Act.spawnSync "lms" ["server", "status"] (some 2000),
        fetchAct cfg], fetchResult)
    else
      ([Act.spawnSync "lms" ["version"] (some 2000),
        Act.spawnSync "lms" ["server", "status"] (some 2000),
        fetchAct cfg], fetchResult)
  else
    ([Act.spawnSync "lms" ["version"] (some 2000), fetchAct cfg], fetchResult)

/-- `isModelLoaded`: `lms ps`, then a substring search of its stdout for the
model id or the configured identifier (`modelIdentifier || modelId`). -/
def isModelLoaded (cfg : Config) (ps : SpawnResult) : Bool :=
  match ps.status with
  | some 0 =>
    strIncludes ps.stdout cfg.model || strIncludes ps.stdout (jsOrStr cfg.modelIdentifier cfg.model)
  | _ => false

/-- GPU portion of the `lms load` argument list, with the
was-a-warning-logged flag: skipped for `"auto"` and empty, `--gpu=max` for a
case variant of `"max"`, `--gpu=<number>` for a value parsing into `[0, 1]`,
otherwise nothing plus a warning. -/
def gpuArgs (gpu : String) : List String × Bool :=
  if gpu ≠ "" ∧ gpu ≠ "auto" then
    if jsToLower gpu = "max" then (["--gpu=max"], false)
    else
      match jsParseFloat gpu with
      | some d => if d.nonneg && d.leOne then (["--gpu=" ++ jsNumToString d], false) else ([], true)
      | none => ([], true)
  else ([], false)

/-- `--context-length=<value>` when a context length is configured. -/
def ctxArgsOf (cfg : Config) : List String :=
  match cfg.contextLength with
  | some s => if s ≠ "" then ["--context-length=" ++ s] else []
  | none => []

/-- `--identifier=<value>` when an identifier is configured. -/
def identArgsOf (cfg : Config) : List String :=
  match cfg.modelIdentifier with
  | some s => if s ≠ "" then ["--identifier=" ++ s] else []
  | none => []

/-- The full `lms load` argument list built by `loadModelWithCLI`, with the
invalid-GPU-warning flag. -/
def buildLoadArgs (cfg : Config) (modelId : String) : List String × Bool :=
  let g := gpuArgs cfg.gpu
  (["load", modelId] ++ g.1 ++ ctxArgsOf cfg ++ identArgsOf cfg, g.2)

/-- `loadModelWithCLI`: builds the argument list, runs `lms load` with a
60000 ms timeout, and on a non-zero exit throws an error carrying
`stderr || stdout || "Unknown error"` (the inner throw is re-wrapped by the
surrounding catch, hence the doubled prefix). -/
def loadModelWithCLI (cfg : Config) (load : SpawnResult) (modelId : String) :
    List Act × Except String Unit :=
  let ab := buildLoadArgs cfg modelId
  let warnT : List Act :=
    if ab.2 then
      [Act.logWarn ("Invalid GPU value \"" ++ cfg.gpu ++ "\", skipping --gpu option")]
    else []
  let t := warnT ++ [Act.spawnSync "lms" ab.1 (some 60000)]
  match load.status with
  | some 0 => (t, Except.ok ())
  | _ =>
    let errorMsg := jsOrS load.stderr (jsOrS load.stdout "Unknown error")
    (t, Except.error ("Failed to load model: " ++ ("Failed to load model: " ++ errorMsg)))

/-- External behaviour seen by one run of `ensureLMStudioRunning`.
`worlds 0` is the initial reachability check; `worlds (k + 1)` is the `k`-th
poll probe; `dur k` is the wall-clock duration of the `k`-th poll probe.
The remaining fields are the exits/outputs of the individual `lms` calls and
of the process launch (`spawnLaunchFails = some msg` models the launch
`spawn` throwing synchronously). -/
structure Env where
  worlds : Nat → ProbeWorld
  dur : Nat → Nat
  startVersionExit : Option Int
  serverStartExit : Option Int
  platform : String
  spawnLaunchFails : Option String
  stageVersionExit : Option Int
  ps : SpawnResult
  load : SpawnResult

/-- The shell-executed, detached, output-ignored launch of a (custom or
platform-default) start command, with the accumulated trace `t`. -/
def startCustom (env : Env) (cmd : String) (t : List Act) :
    List Act × Except String Unit :=
  match env.spawnLaunchFails with
  | none => (t ++ [Act.spawnDetached cmd [] true true], Except.ok ())
  | some m => (t, Except.error ("Failed to start LM Studio: " ++ m))

/-- The platform-default fallback of `startLMStudio`: `open -a "LM Studio"`
(detached) on macOS, `start lmstudio` via shell on Windows, `lmstudio` via
shell elsewhere. -/
def startFallback (env : Env) (t : List Act) : List Act × Except String Unit :=
  if env.platform = "darwin" then
    match env.spawnLaunchFails with
    | none => (t ++ [Act.spawnDetached "open" ["-a", "LM Studio"] false true], Except.ok ())
    | some m => (t, Except.error ("Failed to start LM Studio: " ++ m))
  else if env.platform = "win32" then
    startCustom env "start lmstudio" t
  else
    startCustom env "lmstudio" t

/-- `startLMStudio`: with no custom command, try `lms server start` when the
CLI is available (a zero exit ends the function), otherwise fall back to the
platform default; with a custom command, execute it through a shell, detached,
output ignored, without ever trying the CLI start. -/
def startLMStudio (env : Env) (startCommand : Option String) :
    List Act × Except String Unit :=
  if optTruthy startCommand = false then
    if isLMSCLIAvailable env.startVersionExit then
      let t := [Act.spawnSync "lms" ["version"] (some 2000),
                Act.spawnSync "lms" ["server", "start"] none]
      if env.serverStartExit = some 0 then (t, Except.ok ())
      else startFallback env t
    else startFallback env [Act.spawnSync "lms" ["version"] (some 2000)]
  else
    startCustom env (jsOrStr startCommand "") []

/-- One poll probe's boolean outcome. -/
def probeOk (cfg : Config) (worlds : Nat → ProbeWorld) (i : Nat) : Bool :=
  (checkLMStudioAccessible cfg (worlds i)).2

/-- The loop of `waitForLMStudio`, with structural fuel.  State: `elapsed` is
`Date.now() - startTime` and `k` the probe index.  While `elapsed` is below
`maxWaitTime`: probe; on success return `true`; on failure sleep exactly one
`checkInterval` and retry.  One loop iteration advances `elapsed` by the
probe duration plus the interval.  Fuel `maxWaitTime + 1` is enough for any
positive `checkInterval` (the zero-fuel fallback is then unreachable). -/
def waitLoop (cfg : Config) (worlds : Nat → ProbeWorld) (dur : Nat → Nat)
    (maxWaitTime checkInterval : Nat) : Nat → Nat → Nat → List Act × Bool
  | 0, _, _ => ([], false)
  | fuel + 1, elapsed, k =>
    if elapsed < maxWaitTime then
      let c := checkLMStudioAccessible cfg (worlds k)
      if c.2 then (c.1, true)
      else
        let rest := waitLoop cfg worlds dur maxWaitTime checkInterval fuel
          (elapsed + dur k + checkInterval) (k + 1)
        (c.1 ++ Act.sleepMs checkInterval :: rest.1, rest.2)
    else ([], false)

/-- `waitForLMStudio(baseURL, maxWaitTime = 30000, checkInterval = 1000)`:
polls from time `0` and probe index `0`. -/
def waitForLMStudio (cfg : Config) (worlds : Nat → ProbeWorld) (dur : Nat → Nat)
    (maxWaitTime checkInterval : Nat) : List Act × Bool :=
  waitLoop cfg worlds dur maxWaitTime checkInterval (maxWaitTime + 1) 0 0

/-- The guard of the model-load stage of `ensureLMStudioRunning`:
`config.lmstudio.loadModel && config.lmstudio.model &&
config.lmstudio.model !== "YOUR_MODEL_ID_HERE"`. -/
def shouldLoadModel (cfg : Config) : Bool :=
  cfg.loadModel && cfg.model ≠ "" && cfg.model ≠ "YOUR_MODEL_ID_HERE"

/-- The model-load stage of `ensureLMStudioRunning` (lines 566-588): entered
only under `shouldLoadModel`; without the CLI it is skipped with an
informational line; a load failure is caught and downgraded to warnings. -/
def modelLoadStage (cfg : Config) (env : Env) : List Act :=
  if shouldLoadModel cfg then
    if isLMSCLIAvailable env.stageVersionExit then
      let psT := [Act.spawnSync "lms" ["version"] (some 2000),
                  Act.spawnSync "lms" ["ps"] (some 3000)]
      if isModelLoaded cfg env.ps then psT ++ [Act.logInfo "Model is already loaded"]
      else
        psT ++ [Act.logWarn "Model is not loaded"] ++
        (match loadModelWithCLI cfg env.load cfg.model with
         | (t, Except.ok _) => t
         | (t, Except.error m) =>
           t ++ [Act.logWarn ("Failed to load model automatically: " ++ m),
                 Act.logWarn "You may need to load the model manually or it may already be loaded via GUI"])
    else
      [Act.spawnSync "lms" ["version"] (some 2000),
       Act.logInfo "lms CLI not available - skipping automatic model loading"]
  else []

/-- The fatal errors `ensureLMStudioRunning` can raise. -/
inductive LMErr where
  | autoStartDisabled
  | launchFailed (msg : String)
  | didNotStartInTime
deriving DecidableEq, Repr

/-- `ensureLMStudioRunning` (lines 536-588): initial reachability check; if
unreachable, the disabling sentinel raises the auto-start-disabled error,
otherwise launch and poll (timeout is fatal); finally, in the success paths,
the non-fatal model-load stage. -/
def ensureLMStudioRunning (cfg : Config) (env : Env) : List Act × Option LMErr :=
  let c0 := checkLMStudioAccessible cfg (env.worlds 0)
  if c0.2 then
    (c0.1 ++ modelLoadStage cfg env, none)
  else if startDisabled cfg.startCommand then
    (c0.1, some LMErr.autoStartDisabled)
  else
    match startLMStudio env cfg.startCommand with
    | (t, Except.error m) => (c0.1 ++ t, some (LMErr.launchFailed m))
    | (t, Except.ok _) =>
      let w := waitForLMStudio cfg (fun k => env.worlds (k + 1)) env.dur 30000 1000
      if w.2 then
        (c0.1 ++ t ++ w.1 ++ modelLoadStage cfg env, none)
      else
        (c0.1 ++ t ++ w.1, some LMErr.didNotStartInTime)

/-- An attempt to launch the inference server: any detached spawn, or the
helper CLI's `server start` call. -/
def isLaunchAttempt : Act → Bool
  | Act.spawnDetached _ _ _ _ => true
  | Act.spawnSync c args _ => c = "lms" && args = ["server", "start"]
  | _ => false

/-- A sample configuration shared by the concrete witnesses below. -/
def sampleCfg : Config :=
  ⟨"my-model", "http://localhost:1234/v1", "lm-studio", none, true, "auto", none, none⟩

/-- A sample probe environment in which everything is up. -/
def sampleUpWorld : ProbeWorld :=
  ⟨some 0, some 0, some 200⟩

/-- A sample probe environment in which nothing answers. -/
def sampleDownWorld : ProbeWorld :=
  ⟨none, none, none⟩

/-- A sample run environment in which the server never answers. -/
def sampleDownEnv : Env :=
  ⟨fun _ => sampleDownWorld, fun _ => 0, none, none, "linux", none, none,
   ⟨some 0, "", ""⟩, ⟨some 0, "", ""⟩⟩

/-- The exact effect trace of one `checkLMStudioAccessible` call: the CLI
detector spawn, the server-status spawn when the CLI is present, and exactly
one HTTP GET. -/
lemma check_trace (cfg : Config) (w : ProbeWorld) :
    (checkLMStudioAccessible cfg w).1 =
      Act.spawnSync "lms" ["version"] (some 2000) ::
        ((if isLMSCLIAvailable w.versionExit
          then [Act.spawnSync "lms" ["server", "status"] (some 2000)] else []) ++
         [fetchAct cfg]) := by
  cases hv : isLMSCLIAvailable w.versionExit <;>
    cases hs : checkServerStatusWithCLI w.serverStatusExit <;>
      simp [checkLMStudioAccessible, hv, hs]

/-- The boolean outcome of one `checkLMStudioAccessible` call is decided by
the HTTP response alone. -/
lemma check_result (cfg : Config) (w : ProbeWorld) :
    (checkLMStudioAccessible cfg w).2 =
      match w.fetchStatus with
      | some s => respOk s
      | none => false := by
  cases hv : isLMSCLIAvailable w.versionExit <;>
    cases hs : checkServerStatusWithCLI w.serverStatusExit <;>
      simp [checkLMStudioAccessible, hv, hs]

/-- No event of a `checkLMStudioAccessible` trace is a launch attempt. -/
lemma check_trace_no_launch (cfg : Config) (w : ProbeWorld) :
    ∀ a ∈ (checkLMStudioAccessible cfg w).1, isLaunchAttempt a = false := by
  intro a ha
  rw [check_trace] at ha
  rcases List.mem_cons.1 ha with h | h
  · subst h; decide
  · rcases List.mem_append.1 h with h2 | h2
    · by_cases hv : isLMSCLIAvailable w.versionExit = true
      · simp [hv] at h2; subst h2; decide
      · simp [hv] at h2
    · simp at h2; subst h2; rfl

/-- A non-zero exit of `lms load` makes `loadModelWithCLI` raise an error
carrying `stderr || stdout || "Unknown error"` (wrapped twice by the
source's inner throw plus outer catch-and-rethrow). -/
lemma load_error_msg (cfg : Config) (load : SpawnResult) (modelId : String)
    (c : Int) (h : load.status = some c) (hc : c ≠ 0) :
    (loadModelWithCLI cfg load modelId).2 =
      Except.error ("Failed to load model: " ++ ("Failed to load model: " ++
        jsOrS load.stderr (jsOrS load.stdout "Unknown error"))) := by
  unfold loadModelWithCLI
  rw [h]
  split
  · next heq => exact absurd (Option.some.inj heq) hc
  · rfl

/-- Closed form of the error component of `ensureLMStudioRunning`: it does
not depend on the model-load stage at all. -/
lemma ensure_err (cfg : Config) (env : Env) :
    (ensureLMStudioRunning cfg env).2 =
      (if (checkLMStudioAccessible cfg (env.worlds 0)).2 then none
       else if startDisabled cfg.startCommand then some LMErr.autoStartDisabled
       else
         match (startLMStudio env cfg.startCommand).2 with
         | Except.error m => some (LMErr.launchFailed m)
         | Except.ok _ =>
           if (waitForLMStudio cfg (fun k => env.worlds (k + 1)) env.dur 30000 1000).2
           then none else some LMErr.didNotStartInTime) := by
  unfold ensureLMStudioRunning
  by_cases h0 : (checkLMStudioAccessible cfg (env.worlds 0)).2 = true
  · simp [h0]
  · simp only [Bool.not_eq_true] at h0
    by_cases h1 : startDisabled cfg.startCommand = true
    · simp [h0, h1]
    · simp only [Bool.not_eq_true] at h1
      rcases hst : startLMStudio env cfg.startCommand with ⟨t, r⟩
      rcases r with m | u
      · simp [h0, h1, hst]
      · by_cases h2 :
          (waitForLMStudio cfg (fun k => env.worlds (k + 1)) env.dur 30000 1000).2 = true
        · simp [h0, h1, hst, h2]
        · simp only [Bool.not_eq_true] at h2
          simp [h0, h1, hst, h2]

/-- C3: The Reachability Prober and the Helper-Tool Detector are total
boolean functions over every environment behaviour (network error, timeout,
non-2xx response, missing executable, non-zero exit — all represented in
`ProbeWorld` and `Option Int`): the prober returns `true` iff the HTTP
response arrived with a 2xx status, and the detector returns `true` iff the
`lms version` call exited `0`; every error case yields `false`. -/
theorem c3_prober_detector_never_throw (cfg : Config) (w : ProbeWorld) :
    ((checkLMStudioAccessible cfg w).2 = true ↔
      ∃ s, w.fetchStatus = some s ∧ respOk s = true)
    ∧ (∀ e : Option Int, isLMSCLIAvailable e = true ↔ e = some 0) := by
  constructor
  · rw [check_result]
    cases h : w.fetchStatus <;> simp
  · intro e
    simp [isLMSCLIAvailable]

/-- Witness for C3 at a concrete world: a 200 response makes the prober
return `true`. -/
theorem c3_witness :
    (checkLMStudioAccessible sampleCfg sampleUpWorld).2 = true ∧
    isLMSCLIAvailable (some 0) = true := by
  refine ⟨?_, ?_⟩
  · exact (c3_prober_detector_never_throw sampleCfg sampleUpWorld).1.2
      ⟨200, by decide, by decide⟩
  · exact ((c3_prober_detector_never_throw sampleCfg sampleUpWorld).2 (some 0)).2 rfl

/-- C4 counterexample: the claim says a `checkLMStudioAccessible` invocation
spawns no child processes, but at a concrete world (CLI installed, server up)
its trace contains the `lms version` child-process spawn. -/
theorem c4_counterexample :
    Act.spawnSync "lms" ["version"] (some 2000) ∈
      (checkLMStudioAccessible sampleCfg sampleUpWorld).1 := by
  decide

/-- C4 (amended): each `checkLMStudioAccessible` invocation issues exactly
one GET to `{baseURL}/models` with the Bearer header and 2000 ms timeout, and
its only other effects are the helper-CLI probe child processes: the
`lms version` detector spawn and, when the CLI is available, one
`lms server status` spawn.  In particular it never spawns a launch. -/
theorem c4_prober_effects (cfg : Config) (w : ProbeWorld) :
    (checkLMStudioAccessible cfg w).1 =
      Act.spawnSync "lms" ["version"] (some 2000) ::
        ((if isLMSCLIAvailable w.versionExit
          then [Act.spawnSync "lms" ["server", "status"] (some 2000)] else []) ++
         [Act.httpGet (cfg.baseURL ++ "/models") ("Bearer " ++ cfg.apiKey) 2000]) := by
  exact check_trace cfg w

/-- C1: with the server unreachable and the start command equal to the
disabling sentinel (`"false"` or `"0"`), `ensureLMStudioRunning` stops with
the auto-start-disabled configuration error: its whole trace is exactly the
initial reachability check's trace — so after that check nothing is spawned,
`startLMStudio` is never invoked, and no launch attempt of any kind occurs. -/
theorem c1_sentinel_blocks_launch (cfg : Config) (env : Env)
    (hsc : cfg.startCommand = some "false" ∨ cfg.startCommand = some "0")
    (hdown : (checkLMStudioAccessible cfg (env.worlds 0)).2 = false) :
    ensureLMStudioRunning cfg env =
      ((checkLMStudioAccessible cfg (env.worlds 0)).1, some LMErr.autoStartDisabled)
    ∧ ∀ a ∈ (ensureLMStudioRunning cfg env).1, isLaunchAttempt a = false := by
  have hdis : startDisabled cfg.startCommand = true := by
    rcases hsc with h | h <;> simp [startDisabled, h]
  have hmain : ensureLMStudioRunning cfg env =
      ((checkLMStudioAccessible cfg (env.worlds 0)).1, some LMErr.autoStartDisabled) := by
    simp [ensureLMStudioRunning, hdown, hdis]
  refine ⟨hmain, ?_⟩
  rw [hmain]
  exact check_trace_no_launch cfg (env.worlds 0)

/-- Witness for C1: a concrete down environment with the sentinel `"0"`. -/
theorem c1_witness :
    ((checkLMStudioAccessible { sampleCfg with startCommand := some "0" }
        (sampleDownEnv.worlds 0)).2 = false) ∧
    ensureLMStudioRunning { sampleCfg with startCommand := some "0" } sampleDownEnv =
      ((checkLMStudioAccessible { sampleCfg with startCommand := some "0" }
          (sampleDownEnv.worlds 0)).1, some LMErr.autoStartDisabled) := by
  refine ⟨by decide, ?_⟩
  exact (c1_sentinel_blocks_launch { sampleCfg with startCommand := some "0" }
    sampleDownEnv (Or.inr rfl) (by decide)).1

/-- C8: when a non-empty custom start command is supplied, `startLMStudio`
runs no synchronous child process at all — in particular it never attempts
the helper CLI's `server start` — and (when the spawn does not throw) its
only effect is executing the custom command through a shell, detached, with
output ignored. -/
theorem c8_custom_command_first (env : Env) (cmd : String) (hne : cmd ≠ "") :
    (∀ (c : String) (args : List String) (t : Option Nat),
      Act.spawnSync c args t ∉ (startLMStudio env (some cmd)).1)
    ∧ (env.spawnLaunchFails = none →
        startLMStudio env (some cmd) = ([Act.spawnDetached cmd [] true true], Except.ok ())) := by
  have hb : startLMStudio env (some cmd) = startCustom env cmd [] := by
    simp [startLMStudio, optTruthy, hne, jsOrStr]
  constructor
  · intro c args t
    rw [hb]
    cases hf : env.spawnLaunchFails <;> simp [startCustom, hf]
  · intro hok
    rw [hb]
    simp [startCustom, hok]

/-- Witness for C8 at the concrete command `"my command"`. -/
theorem c8_witness :
    Act.spawnSync "lms" ["server", "start"] none ∉
      (startLMStudio sampleDownEnv (some "my command")).1 ∧
    startLMStudio sampleDownEnv (some "my command") =
      ([Act.spawnDetached "my command" [] true true], Except.ok ()) := by
  refine ⟨?_, ?_⟩
  · exact (c8_custom_command_first sampleDownEnv "my command" (by decide)).1
      "lms" ["server", "start"] none
  · exact (c8_custom_command_first sampleDownEnv "my command" (by decide)).2 rfl

/-- C7: the model-load stage is entered only when the load toggle is on and
the model id is non-empty and not the placeholder (otherwise its trace is
empty); when it is entered but the helper CLI is unavailable, it reduces to
the detector call plus an informational skip line, raising nothing; and
whenever the server is reachable at the initial check the Orchestrator
terminates successfully (error component `none`), whatever the stage did. -/
theorem c7_stage_gating_and_skip (cfg : Config) (env : Env) :
    (¬(cfg.loadModel = true ∧ cfg.model ≠ "" ∧ cfg.model ≠ "YOUR_MODEL_ID_HERE") →
      modelLoadStage cfg env = [])
    ∧ (cfg.loadModel = true → cfg.model ≠ "" → cfg.model ≠ "YOUR_MODEL_ID_HERE" →
        isLMSCLIAvailable env.stageVersionExit = false →
        modelLoadStage cfg env =
          [Act.spawnSync "lms" ["version"] (some 2000),
           Act.logInfo "lms CLI not available - skipping automatic model loading"])
    ∧ ((checkLMStudioAccessible cfg (env.worlds 0)).2 = true →
        (ensureLMStudioRunning cfg env).2 = none) := by
  refine ⟨?_, ?_, ?_⟩
  · intro h
    have hs : shouldLoadModel cfg = false := by
      simp only [shouldLoadModel, Bool.and_eq_true, decide_eq_true_eq,
        Bool.and_eq_false_iff, decide_eq_false_iff_not]
      by_cases h1 : cfg.loadModel = true
      · by_cases h2 : cfg.model = ""
        · exact Or.inl (Or.inr (fun hne => hne h2))
        · refine Or.inr (fun hph => h ⟨h1, h2, hph⟩)
      · exact Or.inl (Or.inl (by simpa using h1))
    simp [modelLoadStage, hs]
  · intro h1 h2 h3 h4
    have hs : shouldLoadModel cfg = true := by
      simp [shouldLoadModel, h1, h2, h3]
    simp [modelLoadStage, hs, h4]
  · intro h0
    rw [ensure_err]
    simp [h0]

/-- Witness for C7: with the CLI missing at the stage and the server up, the
stage is the skip message and the run succeeds. -/
theorem c7_witness :
    modelLoadStage sampleCfg
      { sampleDownEnv with worlds := fun _ => sampleUpWorld } =
      [Act.spawnSync "lms" ["version"] (some 2000),
       Act.logInfo "lms CLI not available - skipping automatic model loading"] ∧
    (ensureLMStudioRunning sampleCfg
      { sampleDownEnv with worlds := fun _ => sampleUpWorld }).2 = none := by
  refine ⟨?_, ?_⟩
  · exact (c7_stage_gating_and_skip sampleCfg
      { sampleDownEnv with worlds := fun _ => sampleUpWorld }).2.1
      rfl (by decide) (by decide) (by decide)
  · exact (c7_stage_gating_and_skip sampleCfg
      { sampleDownEnv with worlds := fun _ => sampleUpWorld }).2.2 (by decide)

/-- C10: the load-model toggle built in `config/env.js` is disabled only by
the exact environment value `"false"`: any other value of
`LMSTUDIO_LOAD_MODEL` — in particular `"0"` — leaves `loadModel` `true`, and
with a real model id the model-load stage guard still holds; by contrast the
start-command sentinel test of the Orchestrator also accepts `"0"`. -/
theorem c10_load_toggle_only_false (v m b a s g c i : Option String)
    (hv : v ≠ some "false") :
    (configFromEnv m b a s v g c i).loadModel = true
    ∧ (configFromEnv m b a s (some "0") g c i).loadModel = true
    ∧ startDisabled (some "0") = true
    ∧ startDisabled (some "false") = true
    ∧ shouldLoadModel (configFromEnv (some "real-model") b a s (some "0") g c i) = true := by
  refine ⟨?_, ?_, rfl, rfl, ?_⟩
  · simp [configFromEnv, hv]
  · simp [configFromEnv]
  · simp [shouldLoadModel, configFromEnv, jsOrStr]

/-- Witness for C10 at the concrete toggle value `"0"`. -/
theorem c10_witness :
    (configFromEnv none none none none (some "0") none none none).loadModel = true ∧
    startDisabled (some "0") = true := by
  have h := c10_load_toggle_only_false (some "0") none none none none none none none
    (by decide)
  exact ⟨h.1, h.2.2.1⟩

/-- C6: a non-zero exit of the `lms load` subcommand raises an error whose
message carries the tool's stderr when non-empty, else its stdout, else a
generic message; inside the model-load stage that error is caught and logged
as a warning carrying the same message; and the Orchestrator's outcome
(error component) is entirely independent of the load call's result — a load
failure never makes `ensureLMStudioRunning` fail. -/
theorem c6_load_failure_nonfatal (cfg : Config) (env : Env) :
    (∀ (load : SpawnResult) (modelId : String) (c : Int),
      load.status = some c → c ≠ 0 →
      (loadModelWithCLI cfg load modelId).2 =
        Except.error ("Failed to load model: " ++ ("Failed to load model: " ++
          jsOrS load.stderr (jsOrS load.stdout "Unknown error"))))
    ∧ (∀ c : Int, shouldLoadModel cfg = true →
        isLMSCLIAvailable env.stageVersionExit = true →
        isModelLoaded cfg env.ps = false →
        env.load.status = some c → c ≠ 0 →
        Act.logWarn ("Failed to load model automatically: " ++
          ("Failed to load model: " ++ ("Failed to load model: " ++
            jsOrS env.load.stderr (jsOrS env.load.stdout "Unknown error"))))
          ∈ modelLoadStage cfg env)
    ∧ (∀ l1 l2 : SpawnResult,
        (ensureLMStudioRunning cfg { env with load := l1 }).2 =
        (ensureLMStudioRunning cfg { env with load := l2 }).2) := by
  refine ⟨?_, ?_, ?_⟩
  · intro load modelId c h hc
    exact load_error_msg cfg load modelId c h hc
  · intro c h1 h2 h3 h4 h5
    have hmsg := load_error_msg cfg env.load cfg.model c h4 h5
    rcases hres : loadModelWithCLI cfg env.load cfg.model with ⟨t, r⟩
    rw [hres] at hmsg
    simp only at hmsg
    subst hmsg
    simp [modelLoadStage, h1, h2, h3, hres]
  · intro l1 l2
    rw [ensure_err, ensure_err]
    rfl

/-- Witness for C6: a failing load (`exit 1`, stderr `"boom"`) yields the
warning in the stage trace, and the doubly-prefixed error from the loader. -/
theorem c6_witness :
    (loadModelWithCLI sampleCfg ⟨some 1, "", "boom"⟩ "my-model").2 =
      Except.error "Failed to load model: Failed to load model: boom" ∧
    Act.logWarn "Failed to load model automatically: Failed to load model: Failed to load model: boom"
      ∈ modelLoadStage sampleCfg
        { sampleDownEnv with
          stageVersionExit := some 0
          ps := ⟨some 0, "other", ""⟩
          load := ⟨some 1, "", "boom"⟩ } := by
  refine ⟨?_, ?_⟩
  · exact (c6_load_failure_nonfatal sampleCfg sampleDownEnv).1
      ⟨some 1, "", "boom"⟩ "my-model" 1 rfl (by decide)
  · exact (c6_load_failure_nonfatal sampleCfg
      { sampleDownEnv with
        stageVersionExit := some 0
        ps := ⟨some 0, "other", ""⟩
        load := ⟨some 1, "", "boom"⟩ }).2.1 1 (by decide) (by decide) (by decide)
      rfl (by decide)

/-- The trace of `n` consecutive failed poll rounds starting at probe index
`k`: each round is one full probe trace followed by exactly one sleep of one
`checkInterval`. -/
def failSeg (cfg : Config) (worlds : Nat → ProbeWorld) (checkInterval : Nat) :
    Nat → Nat → List Act
  | _, 0 => []
  | k, n + 1 =>
    (checkLMStudioAccessible cfg (worlds k)).1 ++ Act.sleepMs checkInterval ::
      failSeg cfg worlds checkInterval (k + 1) n

/-- Elapsed time consumed by `n` failed poll rounds starting at probe index
`k`: each round takes its probe duration plus one `checkInterval`. -/
def elapsedGain (dur : Nat → Nat) (checkInterval : Nat) : Nat → Nat → Nat
  | _, 0 => 0
  | k, n + 1 => dur k + checkInterval + elapsedGain dur checkInterval (k + 1) n

/-- Shape of every `waitLoop` run (adequate fuel, positive interval): for
some `n`, the first `n` probes fail and are each followed by exactly one
sleep, after which the run either ends with a successful probe and result
`true`, or ends with no further event and result `false` because the elapsed
time reached the budget. -/
lemma waitLoop_shape (cfg : Config) (worlds : Nat → ProbeWorld) (dur : Nat → Nat)
    (maxWaitTime checkInterval : Nat) (hpos : 0 < checkInterval) :
    ∀ (fuel elapsed k : Nat), maxWaitTime - elapsed < fuel →
    ∃ n, (∀ i, i < n → probeOk cfg worlds (k + i) = false) ∧
      (((waitLoop cfg worlds dur maxWaitTime checkInterval fuel elapsed k).2 = true ∧
        probeOk cfg worlds (k + n) = true ∧
        (waitLoop cfg worlds dur maxWaitTime checkInterval fuel elapsed k).1 =
          failSeg cfg worlds checkInterval k n ++
            (checkLMStudioAccessible cfg (worlds (k + n))).1)
       ∨ ((waitLoop cfg worlds dur maxWaitTime checkInterval fuel elapsed k).2 = false ∧
          (waitLoop cfg worlds dur maxWaitTime checkInterval fuel elapsed k).1 =
            failSeg cfg worlds checkInterval k n ∧
          maxWaitTime ≤ elapsed + elapsedGain dur checkInterval k n)) := by
  intro fuel
  induction fuel with
  | zero =>
    intro elapsed k h
    omega
  | succ fuel ih =>
    intro elapsed k h
    by_cases hlt : elapsed < maxWaitTime
    · by_cases hp : probeOk cfg worlds k = true
      · refine ⟨0, fun i hi => absurd hi (by omega), Or.inl ?_⟩
        have hc : (checkLMStudioAccessible cfg (worlds k)).2 = true := hp
        simp [waitLoop, hlt, hc, failSeg]
        exact hp
      · have hc : (checkLMStudioAccessible cfg (worlds k)).2 = false := by
          simpa [probeOk] using hp
        have h2 : maxWaitTime - (elapsed + dur k + checkInterval) < fuel := by omega
        obtain ⟨n, hfail, hcase⟩ := ih (elapsed + dur k + checkInterval) (k + 1) h2
        refine ⟨n + 1, ?_, ?_⟩
        · intro i hi
          cases i with
          | zero => simpa [probeOk] using hc
          | succ j =>
            have : k + (j + 1) = k + 1 + j := by omega
            rw [this]
            exact hfail j (by omega)
        · have hunf : waitLoop cfg worlds dur maxWaitTime checkInterval (fuel + 1) elapsed k =
              ((checkLMStudioAccessible cfg (worlds k)).1 ++ Act.sleepMs checkInterval ::
                (waitLoop cfg worlds dur maxWaitTime checkInterval fuel
                  (elapsed + dur k + checkInterval) (k + 1)).1,
               (waitLoop cfg worlds dur maxWaitTime checkInterval fuel
                  (elapsed + dur k + checkInterval) (k + 1)).2) := by
            simp [waitLoop, hlt, hc]
          rcases hcase with ⟨hr, hpk, htr⟩ | ⟨hr, htr, hel⟩
          · refine Or.inl ⟨?_, ?_, ?_⟩
            · rw [hunf]; exact hr
            · have : k + (n + 1) = k + 1 + n := by omega
              rw [this]; exact hpk
            · rw [hunf]
              simp only [failSeg, htr]
              have : k + (n + 1) = k + 1 + n := by omega
              rw [this]
              simp [List.append_assoc]
          · refine Or.inr ⟨?_, ?_, ?_⟩
            · rw [hunf]; exact hr
            · rw [hunf]
              simp only [failSeg, htr]
            · simp only [elapsedGain]
              omega
    · refine ⟨0, fun i hi => absurd hi (by omega), Or.inr ?_⟩
      have : ¬ elapsed < maxWaitTime := hlt
      simp [waitLoop, this, failSeg, elapsedGain]
      omega

/-- C2: shape of every `waitForLMStudio` run with a positive interval.  For
some `n`: the first `n` probes fail, each failed probe is followed by exactly
one sleep of exactly `checkInterval` (the `failSeg` shape), and either the
`n`-th probe succeeds, the run returns `true`, and its trace ends at that
successful probe — no further sleep or probe happens — or every probe of the
run failed, the run returns `false`, and its elapsed time (`elapsedGain`)
reached or exceeded `maxWaitTime`. -/
theorem c2_poller_shape (cfg : Config) (worlds : Nat → ProbeWorld) (dur : Nat → Nat)
    (maxWaitTime checkInterval : Nat) (hpos : 0 < checkInterval) :
    ∃ n, (∀ i, i < n → probeOk cfg worlds i = false) ∧
      (((waitForLMStudio cfg worlds dur maxWaitTime checkInterval).2 = true ∧
        probeOk cfg worlds n = true ∧
        (waitForLMStudio cfg worlds dur maxWaitTime checkInterval).1 =
          failSeg cfg worlds checkInterval 0 n ++
            (checkLMStudioAccessible cfg (worlds n)).1)
       ∨ ((waitForLMStudio cfg worlds dur maxWaitTime checkInterval).2 = false ∧
          (waitForLMStudio cfg worlds dur maxWaitTime checkInterval).1 =
            failSeg cfg worlds checkInterval 0 n ∧
          maxWaitTime ≤ elapsedGain dur checkInterval 0 n)) := by
  have h := waitLoop_shape cfg worlds dur maxWaitTime checkInterval hpos
    (maxWaitTime + 1) 0 0 (by omega)
  simpa [waitForLMStudio] using h

/-- Witness for C2: the shape statement holds at a concrete instance
(interval 1000, budget 3000, prober always failing). -/
theorem c2_witness :
    (0 : Nat) < 1000 ∧
    ∃ n, (∀ i, i < n → probeOk sampleCfg (fun _ => sampleDownWorld) i = false) ∧
      (((waitForLMStudio sampleCfg (fun _ => sampleDownWorld) (fun _ => 0) 3000 1000).2 = true ∧
        probeOk sampleCfg (fun _ => sampleDownWorld) n = true ∧
        (waitForLMStudio sampleCfg (fun _ => sampleDownWorld) (fun _ => 0) 3000 1000).1 =
          failSeg sampleCfg (fun _ => sampleDownWorld) 1000 0 n ++
            (checkLMStudioAccessible sampleCfg ((fun _ => sampleDownWorld) n)).1)
       ∨ ((waitForLMStudio sampleCfg (fun _ => sampleDownWorld) (fun _ => 0) 3000 1000).2 = false ∧
          (waitForLMStudio sampleCfg (fun _ => sampleDownWorld) (fun _ => 0) 3000 1000).1 =
            failSeg sampleCfg (fun _ => sampleDownWorld) 1000 0 n ∧
          3000 ≤ elapsedGain (fun _ => 0) 1000 0 n)) :=
  ⟨by decide,
   c2_poller_shape sampleCfg (fun _ => sampleDownWorld) (fun _ => 0) 3000 1000 (by decide)⟩

/-- C9: with a 3000 ms budget, a 1000 ms interval, instantaneous probes and a
prober that always fails, `waitForLMStudio` performs (at least) 3 probe
attempts (3 HTTP GETs in its trace) and returns `false`. -/
theorem c9_three_failed_probes :
    (waitForLMStudio sampleCfg (fun _ => sampleDownWorld) (fun _ => 0) 3000 1000).2 = false ∧
    3 ≤ (waitForLMStudio sampleCfg (fun _ => sampleDownWorld) (fun _ => 0) 3000 1000).1.countP
      (fun a => match a with | Act.httpGet _ _ _ => true | _ => false) := by
  decide

/-- The boolean gate `Dec.nonneg` is the rational comparison `0 ≤ value`. -/
lemma dec_nonneg_iff (d : Dec) : d.nonneg = true ↔ 0 ≤ d.val := by
  unfold Dec.nonneg Dec.val
  by_cases hs : (0 : Int) ≤ d.scale
  · have hp : (0 : Rat) < (10 : Rat) ^ d.scale.toNat := pow_pos (by norm_num) _
    simp only [hs, if_pos, decide_eq_true_eq]
    rw [mul_nonneg_iff_of_pos_right hp]
    exact_mod_cast Iff.rfl
  · have hp : (0 : Rat) < (10 : Rat) ^ (-d.scale).toNat := pow_pos (by norm_num) _
    simp only [hs, if_neg, decide_eq_true_eq, not_false_iff]
    rw [le_div_iff₀ hp, zero_mul]
    exact_mod_cast Iff.rfl

/-- The boolean gate `Dec.leOne` is the rational comparison `value ≤ 1`. -/
lemma dec_leOne_iff (d : Dec) : d.leOne = true ↔ d.val ≤ 1 := by
  unfold Dec.leOne Dec.val
  by_cases hs : (0 : Int) ≤ d.scale
  · simp only [hs, if_pos, decide_eq_true_eq]
    constructor
    · intro h
      calc (d.mant : Rat) * (10 : Rat) ^ d.scale.toNat
          = ((d.mant * (10 : Int) ^ d.scale.toNat : Int) : Rat) := by push_cast; ring
        _ ≤ ((1 : Int) : Rat) := by exact_mod_cast h
        _ = 1 := by norm_num
    · intro h
      have : ((d.mant * (10 : Int) ^ d.scale.toNat : Int) : Rat) ≤ ((1 : Int) : Rat) := by
        push_cast
        calc (d.mant : Rat) * (10 : Rat) ^ d.scale.toNat ≤ 1 := h
          _ = 1 := rfl
      exact_mod_cast this
  · have hp : (0 : Rat) < (10 : Rat) ^ (-d.scale).toNat := pow_pos (by norm_num) _
    simp only [hs, if_neg, decide_eq_true_eq, not_false_iff]
    rw [div_le_one hp]
    exact_mod_cast Iff.rfl

/-- The effect trace of `loadModelWithCLI`: the invalid-GPU warning when one
was produced, then the `lms load` spawn — whatever the exit status. -/
lemma load_trace (cfg : Config) (load : SpawnResult) (modelId : String) :
    (loadModelWithCLI cfg load modelId).1 =
      (if (buildLoadArgs cfg modelId).2 then
        [Act.logWarn ("Invalid GPU value \"" ++ cfg.gpu ++ "\", skipping --gpu option")]
       else []) ++
      [Act.spawnSync "lms" (buildLoadArgs cfg modelId).1 (some 60000)] := by
  simp only [loadModelWithCLI]
  split <;> rfl

/-- C5: GPU-argument construction of the Model Loader.  The first conjunct
ties the code's decidable range gate to the rational value of the parsed
number; the remaining conjuncts are the four cases of the claim: `"auto"` or
empty yields no `--gpu` argument and no warning; `"max"` yields `--gpu=max`;
a value parsing as a number in `[0, 1]` yields `--gpu=` followed by that
number; any other value yields no `--gpu` argument, a logged warning, and
the `lms load` spawn still happens with the remaining arguments. -/
theorem c5_gpu_argument_rules (cfg : Config) (modelId : String) :
    (∀ d : Dec, (d.nonneg = true ↔ 0 ≤ d.val) ∧ (d.leOne = true ↔ d.val ≤ 1))
    ∧ ((cfg.gpu = "auto" ∨ cfg.gpu = "") →
        buildLoadArgs cfg modelId =
          (["load", modelId] ++ ctxArgsOf cfg ++ identArgsOf cfg, false))
    ∧ (cfg.gpu = "max" →
        buildLoadArgs cfg modelId =
          (["load", modelId] ++ ["--gpu=max"] ++ ctxArgsOf cfg ++ identArgsOf cfg, false))
    ∧ (∀ d : Dec, cfg.gpu ≠ "" → cfg.gpu ≠ "auto" → jsToLower cfg.gpu ≠ "max" →
        jsParseFloat cfg.gpu = some d → 0 ≤ d.val → d.val ≤ 1 →
        buildLoadArgs cfg modelId =
          (["load", modelId] ++ ["--gpu=" ++ jsNumToString d] ++
            ctxArgsOf cfg ++ identArgsOf cfg, false))
    ∧ (cfg.gpu ≠ "" → cfg.gpu ≠ "auto" → jsToLower cfg.gpu ≠ "max" →
        (jsParseFloat cfg.gpu = none ∨
          ∃ d, jsParseFloat cfg.gpu = some d ∧ (d.val < 0 ∨ 1 < d.val)) →
        ∀ load : SpawnResult,
          buildLoadArgs cfg modelId =
            (["load", modelId] ++ ctxArgsOf cfg ++ identArgsOf cfg, true)
          ∧ Act.logWarn ("Invalid GPU value \"" ++ cfg.gpu ++ "\", skipping --gpu option")
              ∈ (loadModelWithCLI cfg load modelId).1
          ∧ Act.spawnSync "lms" (buildLoadArgs cfg modelId).1 (some 60000)
              ∈ (loadModelWithCLI cfg load modelId).1) := by
  refine ⟨fun d => ⟨dec_nonneg_iff d, dec_leOne_iff d⟩, ?_, ?_, ?_, ?_⟩
  · intro h
    have hg : gpuArgs cfg.gpu = ([], false) := by
      rcases h with h | h <;> simp [gpuArgs, h]
    simp [buildLoadArgs, hg]
  · intro h
    have hg : gpuArgs cfg.gpu = (["--gpu=max"], false) := by
      rw [h]; decide
    simp [buildLoadArgs, hg]
  · intro d h1 h2 h3 hparse hnn hle
    have hg : gpuArgs cfg.gpu = (["--gpu=" ++ jsNumToString d], false) := by
      have hgate : (d.nonneg && d.leOne) = true := by
        rw [Bool.and_eq_true, dec_nonneg_iff, dec_leOne_iff]
        exact ⟨hnn, hle⟩
      simp [gpuArgs, h1, h2, h3, hparse, hgate]
    simp [buildLoadArgs, hg]
  · intro h1 h2 h3 hbad load
    have hg : gpuArgs cfg.gpu = ([], true) := by
      rcases hbad with hn | ⟨d, hd, hout⟩
      · simp [gpuArgs, h1, h2, h3, hn]
      · have hgate : (d.nonneg && d.leOne) = false := by
          rcases hout with hlt | hgt
          · have hnn : d.nonneg = false := by
              cases hb : d.nonneg
              · rfl
              · exact absurd ((dec_nonneg_iff d).1 hb) (not_le.2 hlt)
            simp [hnn]
          · have hle : d.leOne = false := by
              cases hb : d.leOne
              · rfl
              · exact absurd ((dec_leOne_iff d).1 hb) (not_le.2 hgt)
            simp [hle]
        simp [gpuArgs, h1, h2, h3, hd, hgate]
    have hargs : buildLoadArgs cfg modelId =
        (["load", modelId] ++ ctxArgsOf cfg ++ identArgsOf cfg, true) := by
      simp [buildLoadArgs, hg]
    have h2w : (buildLoadArgs cfg modelId).2 = true := by rw [hargs]
    refine ⟨hargs, ?_, ?_⟩
    · rw [load_trace, h2w]
      simp
    · rw [load_trace, h2w]
      simp

/-- Witness for C5: a configured GPU value `"0.5"` parses to the scaled
decimal `5 * 10 ^ (-1)` and is emitted as `--gpu=0.5`. -/
theorem c5_witness :
    buildLoadArgs { sampleCfg with gpu := "0.5" } "m" =
      (["load", "m"] ++ ["--gpu=" ++ jsNumToString ⟨5, -1⟩] ++
        ctxArgsOf { sampleCfg with gpu := "0.5" } ++
        identArgsOf { sampleCfg with gpu := "0.5" }, false) := by
  have h := c5_gpu_argument_rules { sampleCfg with gpu := "0.5" } "m"
  exact h.2.2.2.1 ⟨5, -1⟩ (by decide) (by decide) (by decide) (by decide)
    ((h.1 ⟨5, -1⟩).1.mp (by decide)) ((h.1 ⟨5, -1⟩).2.mp (by decide))

end AICommit
